import Mathlib

/-!
Verification of the admin-backend WebSocket handlers.

This file gives a shallow embedding of the three handler modules of the
repository (admin/handlers/orders.py, admin/handlers/notifications.py,
admin/handlers/shop_status.py) and proves or refutes the frozen claims
about them.

Modelling conventions:
- Payload dicts become structures of optional fields; Python truthiness of
  a possibly-missing string field is modelled by optTruthy.
- A payload field that may carry an arbitrary Python value (is_open) is
  modelled by the small Val type with Python truthiness.
- Instants (datetime values) are modelled as integers; the external
  datetime.fromisoformat parser (applied after the handlers' Z to +00:00
  rewrite) is passed in as an abstract function. For the shop-status
  handler the parser also reports whether the parsed datetime is
  timezone-aware (tzinfo set), because CPython raises TypeError when an
  aware datetime is compared with the naive datetime.utcnow().
- Monetary amounts are modelled as integers; float parsing is likewise an
  abstract function since the claims do not depend on fractional values.
- The document store is a record of lists of documents; find_one is
  List.find?, count_documents is the length of List.filter, insert_one
  appends, delete_one removes the first match, update_one maps a
  per-document update over the matching collection.
- Each handler is a pure function from its inputs and the database state
  to the response it sends plus the resulting database state.
-/

namespace AdminBackend

/-- Python-style value for payload fields whose type is not fixed
(absent or None collapse to Val.none, as dict.get does). -/
inductive Val
  | none
  | bool (b : Bool)
  | str (s : String)
  | int (n : Int)
deriving DecidableEq, Repr

/-- Python truthiness, as used by `bool(x)` and by `if x:` tests. -/
def Val.truthy : Val → Bool
  | .none => false
  | .bool b => b
  | .str s => !s.isEmpty
  | .int n => decide (n ≠ 0)

/-- Truthiness of a possibly-missing string payload field: None and the
empty string are falsy, everything else truthy. -/
def optTruthy : Option String → Bool
  | Option.none => false
  | some s => !s.isEmpty

/-- An entry of an order's append-only status_change_history list. -/
structure HistoryEntry where
  status : String
  changed_at : Int
  changed_by : Option String
  partner_id : Option String
  partner_name : Option String
  message : String
deriving DecidableEq, Repr

/-- A line item of an order: the external product id plus quantity. -/
structure ItemDoc where
  product : Option String
  quantity : Nat
deriving DecidableEq, Repr

/-- A document of the orders collection. -/
structure OrderDoc where
  id : String
  user : Option String
  delivery_partner : Option String
  items : List ItemDoc
  total_amount : Int
  order_status : String
  status_message : Option String
  status_change_history : List HistoryEntry
  created_at : Int
  updated_at : Option Int
  assigned_at : Option Int
  delivery_address : Option String
deriving DecidableEq, Repr

/-- A document of the users collection. Users carry both the storage
engine's internal identifier (the `_id` ObjectId, modelled as a string)
and the application-level external identifier (the `id` field). -/
structure UserDoc where
  _id : String
  id : String
  name : String
  email : String
  phone : String
  role : String
  is_active : Bool
  is_verified : Bool
deriving DecidableEq, Repr

/-- A document of the products collection. -/
structure ProductDoc where
  id : String
  name : String
  images : List String
deriving DecidableEq, Repr

/-- The user_filter sub-payload of a broadcast notification request.
Val.none models an absent key, so that dict.get defaulting is faithful. -/
structure UserFilter where
  active_only : Val
  verified_only : Val
deriving DecidableEq, Repr

/-- A document of the notifications collection. The Python field named
"for" is spelled forKey here because `for` is reserved in Lean. -/
structure NotificationDoc where
  _id : String
  user_id : Option String
  title : String
  message : String
  type : String
  forKey : String
  user_filter : Option UserFilter
  target_user_count : Option Nat
  read : Bool
  read_at : Option Int
  created_at : Int
  created_at_ist : Option String
  timezone : String
  created_by : String
  created_by_admin : Bool
  order_id : Option String
deriving DecidableEq, Repr

/-- The shop_status singleton document. -/
structure ShopStatusDoc where
  is_open : Bool
  reopen_time : Option String
  reason : Option String
  updated_at : Int
  updated_by : String
deriving DecidableEq, Repr

/-- The pagination metadata block built by send_orders (orders.py 44-56). -/
structure Pagination where
  current_page : Nat
  total_pages : Nat
  total_orders : Nat
  has_prev : Bool
  has_next : Bool
  page_size : Nat
deriving DecidableEq, Repr

/-- A serialized line item as shaped by send_orders (orders.py 104-110). -/
structure SerializedItem where
  product : Option String
  quantity : Nat
  product_name : String
  product_image : List String
deriving DecidableEq, Repr

/-- A serialized order as shaped by send_orders (orders.py 112-128). -/
structure SerializedOrder where
  id : String
  total : Int
  status : String
  user_name : String
  user_email : String
  user_phone : String
  delivery_partner_name : Option String
  items : List SerializedItem
deriving DecidableEq, Repr

/-- The document database state: one list of documents per collection. -/
structure DB where
  orders : List OrderDoc
  users : List UserDoc
  products : List ProductDoc
  notifications : List NotificationDoc
  shop_status : List ShopStatusDoc
deriving DecidableEq, Repr

/-- The JSON responses the handlers send back over the WebSocket. -/
inductive Resp
  | error (message : String)
  | ordersData (orders : List SerializedOrder) (pagination : Pagination)
  | orderUpdated (order_id : String)
  | orderAssigned (order_id : String) (delivery_partner_id : String)
      (delivery_partner_name : String)
  | notificationSent (message : String)
  | notificationBroadcastSent (message : String) (user_count : Nat)
  | notificationDeleted (notification_id : String)
  | shopStatusUpdated (is_open : Bool) (reopen_time : Option String)
      (reason : Option String)
deriving DecidableEq, Repr

/-- Whether a response is the generic error tag. -/
def Resp.isError : Resp → Bool
  | .error _ => true
  | _ => false

/-! ## Shop status handler (shop_status.py) -/

/-- Result of datetime.fromisoformat on the reopen_time string after the
Z to +00:00 rewrite (shop_status.py line 68): the parsed instant plus
whether the resulting datetime is timezone-aware (tzinfo set). -/
abbrev IsoParse := String → Option (Int × Bool)

/-- CPython's message for comparing an aware datetime with a naive one,
as surfaced by the handler's catch-all (shop_status.py line 155). -/
def tzCompareError : String :=
  "Failed to update shop status: cant compare offset-naive and offset-aware datetimes"

/-- Shallow embedding of update_shop_status (shop_status.py 52-156).
The parser, the current instant and the admin email are passed in; the
cache-invalidation and broadcast side effects (lines 105-140) are
best-effort externals with no influence on the database state or the
primary response, so they are not modelled.

Control flow of the source: is_open is fetched with data.get and a None
value raises ValueError (caught at line 142, message sent verbatim); a
truthy reopen_time is parsed inside a try that catches only ValueError,
so a parse failure sends the invalid-format error, a parsed instant not
strictly after utcnow() sends the future-required error, and a parsed
timezone-aware instant makes the comparison itself raise TypeError which
falls through to the generic catch-all at line 148; only after these
checks is the singleton document upserted. -/
def update_shop_status (parse : IsoParse) (now : Int) (email : String)
    (db : DB) (is_open : Val) (reopen_time : Option String)
    (reason : Option String) : Resp × DB :=
  if is_open = Val.none then
    (Resp.error "is_open field is required", db)
  else
    let rtCheck : Option Resp :=
      match reopen_time with
      | Option.none => Option.none
      | some s =>
        if s.isEmpty then Option.none
        else
          match parse s with
          | Option.none =>
            some (Resp.error "Invalid datetime format for reopen_time")
          | some (t, aware) =>
            if aware then some (Resp.error tzCompareError)
            else if t ≤ now then
              some (Resp.error "Reopen time must be in the future")
            else Option.none
    match rtCheck with
    | some r => (r, db)
    | Option.none =>
      let doc : ShopStatusDoc :=
        { is_open := is_open.truthy
          reopen_time := reopen_time
          reason := reason
          updated_at := now
          updated_by := email }
      let db' :=
        match db.shop_status with
        | [] => { db with shop_status := [doc] }
        | _ :: rest => { db with shop_status := doc :: rest }
      (Resp.shopStatusUpdated is_open.truthy reopen_time reason, db')

/-- An empty database, used to instantiate theorems on concrete inputs. -/
def emptyDB : DB :=
  { orders := [], users := [], products := [], notifications := []
    shop_status := [] }

/-- Concrete stand-in for the external ISO-8601 parser, defined only on
the two fixture strings used below: the Z-suffixed form parses to an
aware datetime, the bare form to a naive one, both denoting the same
instant (2030-01-01T00:00:00 as a Unix timestamp). -/
def parseIsoFixture : IsoParse := fun s =>
  if s = "2030-01-01T00:00:00Z" then some (1893456000, true)
  else if s = "2030-01-01T00:00:00" then some (1893456000, false)
  else Option.none

/-! ## Order listing and pagination (orders.py) -/

/-- The filter payload consumed by build_orders_query and send_orders.
String-valued dimensions are optional; page and limit are the pagination
parameters (defaulting to 1 and 10 in the source). They are naturals
here: the claims under verification all constrain page to be at least 1,
matching the driver, which rejects the negative skip a smaller page would
produce. -/
structure Filters where
  status : Option String
  from_date : Option String
  to_date : Option String
  min_amount : Option String
  max_amount : Option String
  search : Option String
  page : Nat
  limit : Nat
deriving DecidableEq, Repr

/-- One conjunct of the MongoDB query dict assembled by
build_orders_query; the dict combines all of its conditions (whether
stored at top level or inside a nested and-list) conjunctively. -/
inductive Cond
  | statusEq (s : String)
  | createdGe (d : Int)
  | createdLe (d : Int)
  | amountGe (a : Int)
  | amountLe (a : Int)
  | idRegex (term : String)
deriving DecidableEq, Repr

/-- Whether the first character list starts the second. -/
def charsStart : List Char → List Char → Bool
  | [], _ => true
  | _ :: _, [] => false
  | a :: as, b :: bs => a == b && charsStart as bs

/-- Whether the first character list occurs contiguously in the second. -/
def charsOccur (pat : List Char) : List Char → Bool
  | [] => charsStart pat []
  | c :: rest => charsStart pat (c :: rest) || charsOccur pat rest

/-- Case-insensitive substring test: the regex search the source issues
(orders.py line 222) is a plain term with the i option, which MongoDB
matches as a case-insensitive substring. -/
def ciContains (pat s : String) : Bool :=
  charsOccur pat.toLower.toList s.toLower.toList

/-- Whether one order satisfies one query conjunct. -/
def condMatches (o : OrderDoc) : Cond → Bool
  | .statusEq s => o.order_status == s
  | .createdGe d => decide (d ≤ o.created_at)
  | .createdLe d => decide (o.created_at ≤ d)
  | .amountGe a => decide (a ≤ o.total_amount)
  | .amountLe a => decide (o.total_amount ≤ a)
  | .idRegex t => ciContains t o.id

/-- Whether one order satisfies the whole query. -/
def ordMatches (q : List Cond) (o : OrderDoc) : Bool :=
  q.all (condMatches o)

/-- Contribution of the status filter (orders.py 163-164): a truthy
status other than the sentinel "all" contributes an equality conjunct. -/
def statusConds (f : Filters) : List Cond :=
  match f.status with
  | some s => if !s.isEmpty && s ≠ "all" then [Cond.statusEq s] else []
  | Option.none => []

/-- Contribution of the from_date filter (orders.py 169-174): parsed
inside its own try/except, so a malformed value contributes nothing. -/
def fromDateConds (parseDate : String → Option Int) (f : Filters) :
    List Cond :=
  match f.from_date with
  | some s =>
    if s.isEmpty then []
    else match parseDate s with
      | some d => [Cond.createdGe d]
      | Option.none => []
  | Option.none => []

/-- Contribution of the to_date filter (orders.py 176-181). -/
def toDateConds (parseDate : String → Option Int) (f : Filters) :
    List Cond :=
  match f.to_date with
  | some s =>
    if s.isEmpty then []
    else match parseDate s with
      | some d => [Cond.createdLe d]
      | Option.none => []
  | Option.none => []

/-- Contribution of the min_amount filter (orders.py 192-197): float()
inside its own try/except, so a malformed value contributes nothing. -/
def minAmountConds (parseAmount : String → Option Int) (f : Filters) :
    List Cond :=
  match f.min_amount with
  | some s =>
    if s.isEmpty then []
    else match parseAmount s with
      | some a => [Cond.amountGe a]
      | Option.none => []
  | Option.none => []

/-- Contribution of the max_amount filter (orders.py 199-204). -/
def maxAmountConds (parseAmount : String → Option Int) (f : Filters) :
    List Cond :=
  match f.max_amount with
  | some s =>
    if s.isEmpty then []
    else match parseAmount s with
      | some a => [Cond.amountLe a]
      | Option.none => []
  | Option.none => []

/-- Contribution of the free-text search (orders.py 213-222): strip the
term, drop one leading "#", and match it case-insensitively against the
external order id. -/
def searchConds (f : Filters) : List Cond :=
  match f.search with
  | some s =>
    if s.isEmpty then []
    else
      let term := s.trim
      let term := if term.startsWith "#" then term.drop 1 else term
      [Cond.idRegex term]
  | Option.none => []

/-- Shallow embedding of build_orders_query (orders.py 157-229).
parseDate stands for datetime.fromisoformat after the Z rewrite and
parseAmount for float(); each returns none where the library call would
raise ValueError. The source accumulates the dimensions into one query
dict (top-level keys plus a nested and-list), all combined conjunctively
and in this order; here the query is the concatenation of the per-
dimension contributions in that same order. -/
def build_orders_query (parseDate : String → Option Int)
    (parseAmount : String → Option Int) (f : Filters) : List Cond :=
  statusConds f ++ fromDateConds parseDate f ++ toDateConds parseDate f ++
    minAmountConds parseAmount f ++ maxAmountConds parseAmount f ++
    searchConds f

/-- Number of orders matching a query (db.count_documents on orders). -/
def countOrders (db : DB) (q : List Cond) : Nat :=
  (db.orders.filter (ordMatches q)).length

/-- Insert one order into a list sorted by created_at descending. -/
def insertByCreated (o : OrderDoc) : List OrderDoc → List OrderDoc
  | [] => [o]
  | x :: xs =>
    if x.created_at ≤ o.created_at then o :: x :: xs
    else x :: insertByCreated o xs

/-- Sort orders by created_at descending (the sort criteria of
orders.py line 33). -/
def sortByCreatedDesc : List OrderDoc → List OrderDoc
  | [] => []
  | x :: xs => insertByCreated x (sortByCreatedDesc xs)

/-- db.find_many on orders with sort, skip and limit; MongoDB treats a
limit of 0 as no limit. -/
def findOrders (db : DB) (q : List Cond) (skip limit : Nat) :
    List OrderDoc :=
  let matched := sortByCreatedDesc (db.orders.filter (ordMatches q))
  if limit = 0 then matched.drop skip else (matched.drop skip).take limit

/-- Lookup of a user document by the application-level external id
field, as issued by the batched id-in queries of orders.py lines 71, 77
and by get_all_notifications line 100. -/
def userByExternalId (db : DB) (uid : String) : Option UserDoc :=
  db.users.find? (fun u => u.id == uid)

/-- Lookup of a user document by the storage-internal _id field, as
issued by send_notification_to_user (notifications.py line 165). -/
def userByInternalId (db : DB) (oid : String) : Option UserDoc :=
  db.users.find? (fun u => u._id == oid)

/-- Lookup of a product by its external id field (orders.py line 90). -/
def productByExternalId (db : DB) (pid : String) : Option ProductDoc :=
  db.products.find? (fun p => p.id == pid)

/-- Per-order serialization step of send_orders (orders.py 94-130): the
batched users/partners/products dictionaries are keyed by the documents
own external id fields, so a per-order dictionary lookup coincides with
a direct lookup by external id. Missing references fall back to the
sentinel defaults of the source. -/
def serializeOrder (db : DB) (o : OrderDoc) : SerializedOrder :=
  let user := userByExternalId db ((o.user).getD "")
  let partner := (o.delivery_partner).bind (fun pid => userByExternalId db pid)
  { id := o.id
    total := o.total_amount
    status := o.order_status
    user_name := (user.map UserDoc.name).getD "Unknown"
    user_email := (user.map UserDoc.email).getD ""
    user_phone := (user.map UserDoc.phone).getD ""
    delivery_partner_name := partner.map UserDoc.name
    items := o.items.map (fun it =>
      let product := productByExternalId db ((it.product).getD "")
      { product := it.product
        quantity := it.quantity
        product_name := (product.map ProductDoc.name).getD "Unknown Product"
        product_image := (product.map ProductDoc.images).getD [] }) }

/-- Ceiling division on naturals, total_pages = ceil(total / limit). -/
def ceilDiv (a b : Nat) : Nat := (a + b - 1) / b

/-- The pagination metadata block of send_orders (orders.py 44-56). -/
def mkPagination (page limit total_count : Nat) : Pagination :=
  let total_pages := if 0 < total_count then ceilDiv total_count limit else 1
  { current_page := page
    total_pages := total_pages
    total_orders := total_count
    has_prev := decide (1 < page)
    has_next := decide (page < total_pages)
    page_size := limit }

/-- Shallow embedding of send_orders (orders.py 10-155). When at least
one order matches and limit is 0, math.ceil(total_count / limit) raises
ZeroDivisionError, which the catch-all at line 145 turns into the
generic error response; otherwise the handler sends the serialized page
with its pagination block. Serialization never fails in the model, so
the per-order skip-on-exception of lines 132-134 is unreachable. -/
def send_orders (parseDate parseAmount : String → Option Int) (db : DB)
    (f : Filters) : Resp :=
  let query := build_orders_query parseDate parseAmount f
  let skip := (f.page - 1) * f.limit
  let total_count := countOrders db query
  if 0 < total_count ∧ f.limit = 0 then Resp.error "Failed to fetch orders"
  else
    let orders := findOrders db query skip f.limit
    Resp.ordersData (orders.map (serializeOrder db))
      (mkPagination f.page f.limit total_count)

/-! ## Order status update and partner assignment (orders.py) -/

/-- Payload of an update_order_status request; the source accepts the
order id under either of two keys (orders.py line 234). -/
structure UpdateStatusData where
  order_id : Option String
  orderId : Option String
  status : Option String
deriving DecidableEq, Repr

/-- The Python expression data.get("order_id") or data.get("orderId"):
the first key wins when its value is truthy, otherwise the second key's
value is used. -/
def UpdateStatusData.oid (d : UpdateStatusData) : Option String :=
  match d.order_id with
  | some s => if s.isEmpty then d.orderId else some s
  | Option.none => d.orderId

/-- The per-document write of update_order_status (orders.py 256-275):
set order_status, updated_at and the fixed status_message, and push one
history entry carrying the same fixed message. -/
def applyStatusUpdate (now : Int) (oid newStatus : String)
    (o : OrderDoc) : OrderDoc :=
  if o.id == oid then
    { o with
      order_status := newStatus
      updated_at := some now
      status_message := some "Order is out for delivery"
      status_change_history := o.status_change_history ++
        [{ status := newStatus
           changed_at := now
           changed_by := Option.none
           partner_id := Option.none
           partner_name := Option.none
           message := "Order is out for delivery" }] }
  else o

/-- Shallow embedding of update_order_status (orders.py 231-294). The
update_one result is modelled as whether a document matched the id
filter; the wrapper around the driver result is outside src. -/
def update_order_status (now : Int) (db : DB) (d : UpdateStatusData) :
    Resp × DB :=
  if !(optTruthy d.oid && optTruthy d.status) then
    (Resp.error "Order ID and status are required", db)
  else
    let oid := (d.oid).getD ""
    let st := (d.status).getD ""
    let db' := { db with orders := db.orders.map (applyStatusUpdate now oid st) }
    if db.orders.any (fun o => o.id == oid) then (Resp.orderUpdated oid, db')
    else (Resp.error "Failed to update order", db')

/-- Payload of an assign_delivery_partner request. -/
structure AssignData where
  order_id : Option String
  delivery_partner_id : Option String
  admin_name : Option String
deriving DecidableEq, Repr

/-- Lookup of an order by its external id field (orders.py line 357). -/
def findOrderById (db : DB) (oid : String) : Option OrderDoc :=
  db.orders.find? (fun o => o.id == oid)

/-- The partner verification query of orders.py 366-370: a user with the
given external id, role delivery_partner and is_active true. -/
def findActivePartner (db : DB) (pid : String) : Option UserDoc :=
  db.users.find? (fun u => u.id == pid && u.role == "delivery_partner" && u.is_active)

/-- The per-document write of assign_delivery_partner (orders.py
382-404): set the partner reference, status, timestamps and message, and
push one history entry recording actor and partner. -/
def applyAssignUpdate (now : Int) (oid pid adminName : String)
    (partner : UserDoc) (o : OrderDoc) : OrderDoc :=
  if o.id == oid then
    { o with
      delivery_partner := some pid
      order_status := "assigned"
      assigned_at := some now
      updated_at := some now
      status_message := some ("Order assigned to " ++ partner.name)
      status_change_history := o.status_change_history ++
        [{ status := "assigned"
           changed_at := now
           changed_by := some adminName
           partner_id := some pid
           partner_name := some partner.name
           message := "Order assigned to " ++ partner.name ++ " by " ++ adminName }] }
  else o

/-- Shallow embedding of assign_delivery_partner (orders.py 342-438):
require both ids, look up the order by external id, verify the partner
by external id with role delivery_partner and active flag, and only then
perform the single conditional write and answer with the assignment. -/
def assign_delivery_partner (now : Int) (db : DB) (d : AssignData) :
    Resp × DB :=
  if !(optTruthy d.order_id && optTruthy d.delivery_partner_id) then
    (Resp.error "Order ID and delivery partner ID are required", db)
  else
    let oid := (d.order_id).getD ""
    let pid := (d.delivery_partner_id).getD ""
    match findOrderById db oid with
    | Option.none => (Resp.error "Order not found", db)
    | some _ =>
      match findActivePartner db pid with
      | Option.none => (Resp.error "Delivery partner not found or inactive", db)
      | some partner =>
        let adminName := (d.admin_name).getD "Admin"
        let db' := { db with
          orders := db.orders.map (applyAssignUpdate now oid pid adminName partner) }
        (Resp.orderAssigned oid pid partner.name, db')

/-! ## Notification handlers (notifications.py) -/

/-- Payload of a targeted notification request. -/
structure TargetedData where
  user_id : Option String
  title : Option String
  message : Option String
  type : Option String
  order_id : Option String
deriving DecidableEq, Repr

/-- Recipient resolution of the notification listing (notifications.py
96-108): the stored user_id is looked up on the external id field. -/
def resolveNotificationRecipient (db : DB) (uid : String) : Option UserDoc :=
  userByExternalId db uid

/-- Shallow embedding of send_notification_to_user (notifications.py
148-219). The recipient existence check of line 165 filters the users
collection on the storage-internal _id field (ObjectId(user_id), the
ObjectId constructor modelled as the raw string); only on success is the
single notification document inserted (insert_one draws the fresh
internal id newId). The current UTC instant and preformatted IST display
string are passed in for the two stored creation-time forms. -/
def send_notification_to_user (nowUtc : Int) (istStr : String)
    (adminEmail : String) (newId : String) (db : DB) (d : TargetedData) :
    Resp × DB :=
  if !(optTruthy d.user_id && optTruthy d.title && optTruthy d.message) then
    (Resp.error "User ID, title, and message are required", db)
  else
    match userByInternalId db ((d.user_id).getD "") with
    | Option.none => (Resp.error "User not found", db)
    | some user =>
      let notif : NotificationDoc :=
        { _id := newId
          user_id := d.user_id
          title := (d.title).getD ""
          message := (d.message).getD ""
          type := (d.type).getD "system"
          forKey := "specific_user"
          user_filter := Option.none
          target_user_count := Option.none
          read := false
          read_at := Option.none
          created_at := nowUtc
          created_at_ist := some istStr
          timezone := "Asia/Kolkata"
          created_by := adminEmail
          created_by_admin := true
          order_id := d.order_id }
      (Resp.notificationSent ("Notification sent to " ++ user.name),
        { db with notifications := db.notifications ++ [notif] })

/-- Payload of a broadcast notification request. -/
structure BroadcastData where
  title : Option String
  message : Option String
  type : Option String
  user_filter : UserFilter
deriving DecidableEq, Repr

/-- The audience query of notifications.py 238-247: customers, with
is_active required when user_filter.get("active_only", True) is truthy
(so an absent key defaults to requiring active) and is_verified required
when user_filter.get("verified_only") is truthy. Returns the snapshot
count. -/
def broadcastAudience (db : DB) (uf : UserFilter) : Nat :=
  let activeReq := match uf.active_only with
    | Val.none => true
    | v => v.truthy
  let verifiedReq := (uf.verified_only).truthy
  (db.users.filter (fun u =>
    u.role == "customer" && (!activeReq || u.is_active) &&
      (!verifiedReq || u.is_verified))).length

/-- Shallow embedding of send_notification_to_all_users
(notifications.py 222-303): require title and message, take the snapshot
audience count, fail without writing when it is zero, and otherwise
insert exactly one document with forKey all_users storing the count. -/
def send_notification_to_all_users (nowUtc : Int) (istStr : String)
    (adminEmail : String) (newId : String) (db : DB) (d : BroadcastData) :
    Resp × DB :=
  if !(optTruthy d.title && optTruthy d.message) then
    (Resp.error "Title and message are required", db)
  else
    let cnt := broadcastAudience db d.user_filter
    if cnt = 0 then
      (Resp.error "No users found matching the criteria", db)
    else
      let notif : NotificationDoc :=
        { _id := newId
          user_id := Option.none
          title := (d.title).getD ""
          message := (d.message).getD ""
          type := (d.type).getD "system"
          forKey := "all_users"
          user_filter := some d.user_filter
          target_user_count := some cnt
          read := false
          read_at := Option.none
          created_at := nowUtc
          created_at_ist := some istStr
          timezone := "Asia/Kolkata"
          created_by := adminEmail
          created_by_admin := true
          order_id := Option.none }
      (Resp.notificationBroadcastSent
          ("Notification will be shown to " ++ toString cnt ++ " users") cnt,
        { db with notifications := db.notifications ++ [notif] })

/-- Remove the first notification whose internal _id matches
(db.delete_one on the notifications collection). -/
def deleteFirstNotif (nid : String) : List NotificationDoc → List NotificationDoc
  | [] => []
  | n :: rest => if n._id == nid then rest else n :: deleteFirstNotif nid rest

/-- Shallow embedding of delete_notification (notifications.py 306-357):
require the id, find the notification by internal _id with the
created_by_admin flag set (not-found and not-admin thereby collapse to
one error), and only then delete it by _id. -/
def delete_notification (db : DB) (notification_id : Option String) :
    Resp × DB :=
  if !(optTruthy notification_id) then
    (Resp.error "Notification ID is required", db)
  else
    let nid := notification_id.getD ""
    match db.notifications.find? (fun n => n._id == nid && n.created_by_admin) with
    | Option.none => (Resp.error "Notification not found or not authorized", db)
    | some _ =>
      (Resp.notificationDeleted nid,
        { db with notifications := deleteFirstNotif nid db.notifications })

/-! ## Helper lemmas -/

theorem length_insertByCreated (o : OrderDoc) (l : List OrderDoc) :
    (insertByCreated o l).length = l.length + 1 := by
  induction l with
  | nil => rfl
  | cons x xs ih =>
    by_cases h : x.created_at ≤ o.created_at
    · simp [insertByCreated, h]
    · simp [insertByCreated, h, ih]

theorem length_sortByCreatedDesc (l : List OrderDoc) :
    (sortByCreatedDesc l).length = l.length := by
  induction l with
  | nil => rfl
  | cons x xs ih => simp [sortByCreatedDesc, length_insertByCreated, ih]

theorem length_findOrders (db : DB) (q : List Cond) (skip limit : Nat)
    (hl : limit ≠ 0) :
    (findOrders db q skip limit).length =
      min limit (countOrders db q - skip) := by
  simp [findOrders, hl, countOrders, length_sortByCreatedDesc]

theorem findOrders_of_no_match (db : DB) (q : List Cond) (skip limit : Nat)
    (h : db.orders.filter (ordMatches q) = []) :
    findOrders db q skip limit = [] := by
  simp [findOrders, h, sortByCreatedDesc]

/-- Shape of the send_orders response whenever math.ceil does not divide
by zero: the serialized page plus the pagination block. -/
theorem send_orders_shape (parseDate parseAmount : String → Option Int)
    (db : DB) (f : Filters)
    (h : ¬(0 < countOrders db (build_orders_query parseDate parseAmount f) ∧
      f.limit = 0)) :
    send_orders parseDate parseAmount db f =
      Resp.ordersData
        ((findOrders db (build_orders_query parseDate parseAmount f)
            ((f.page - 1) * f.limit) f.limit).map (serializeOrder db))
        (mkPagination f.page f.limit
          (countOrders db (build_orders_query parseDate parseAmount f))) := by
  simp only [send_orders]
  rw [if_neg h]

/-! ## Fixtures used to instantiate the theorems on concrete inputs -/

/-- Accumulating decimal parser over a character list. -/
def parseDigitsAux : List Char → Nat → Option Nat
  | [], acc => some acc
  | c :: cs, acc =>
    if c.isDigit then parseDigitsAux cs (acc * 10 + (c.toNat - 48))
    else Option.none

/-- Concrete stand-in for the abstract numeric and date parsers: decimal
digit strings parse, everything else is malformed. -/
def parseDigits : String → Option Int := fun s =>
  if s.isEmpty then Option.none
  else (parseDigitsAux s.toList 0).map Int.ofNat

/-- A filter payload with no active filter dimensions. -/
def plainFilters : Filters :=
  { status := some "all", from_date := Option.none, to_date := Option.none
    min_amount := Option.none, max_amount := Option.none
    search := Option.none, page := 1, limit := 10 }

/-- A minimal order document for fixtures, distinguished by index. -/
def mkOrderFixture (i : Nat) : OrderDoc :=
  { id := "o" ++ toString i, user := Option.none
    delivery_partner := Option.none, items := [], total_amount := 100
    order_status := "pending", status_message := Option.none
    status_change_history := [], created_at := Int.ofNat i
    updated_at := Option.none, assigned_at := Option.none
    delivery_address := Option.none }

/-- A database holding 25 orders, all matching the empty query. -/
def db25 : DB := { emptyDB with orders := (List.range 25).map mkOrderFixture }

/-! ## C9: shop-status update requires an explicit boolean is_open -/

/-- C9 (amended): a shop-status update whose is_open field is absent or
null is rejected with the validation error and causes no write; the
source only checks `is_open is None`, so this theorem is the part of the
claim the code satisfies. -/
theorem update_shop_status_requires_is_open (parse : IsoParse) (now : Int)
    (email : String) (db : DB) (reopen_time reason : Option String) :
    update_shop_status parse now email db Val.none reopen_time reason =
      (Resp.error "is_open field is required", db) := by
  simp [update_shop_status]

/-- Witness for the amended C9 theorem at a concrete input. -/
theorem update_shop_status_requires_is_open_witness :
    update_shop_status parseIsoFixture 1760000000 "admin@example.com" emptyDB
        Val.none (some "2030-01-01T00:00:00") Option.none =
      (Resp.error "is_open field is required", emptyDB) :=
  update_shop_status_requires_is_open parseIsoFixture 1760000000
    "admin@example.com" emptyDB (some "2030-01-01T00:00:00") Option.none

/-- C9 counterexample: the claim says a non-boolean is_open is rejected
with a validation error and no write, but the source only rejects None;
the non-boolean string value "no" is coerced by bool() to true, the
update is accepted, the singleton is written (with the shop marked open)
and the success response is sent. -/
theorem update_shop_status_nonbool_accepted :
    update_shop_status parseIsoFixture 1760000000 "admin@example.com" emptyDB
        (Val.str "no") Option.none Option.none =
      (Resp.shopStatusUpdated true Option.none Option.none,
        { emptyDB with shop_status :=
            [{ is_open := true, reopen_time := Option.none
               reason := Option.none, updated_at := 1760000000
               updated_by := "admin@example.com" }] }) := by
  decide

/-! ## C2: scheduled reopen instants -/

/-- C2 evaluation at the failing input: the Z-suffixed reopen instant
2030-01-01T00:00:00Z parses (the handler itself rewrites Z to +00:00 at
line 68 so that it does) and lies strictly in the future of the current
instant, and is_open is a present boolean, yet the update is not
accepted and nothing is written: the parsed datetime is timezone-aware,
so the comparison with the naive datetime.utcnow() at line 69 raises
TypeError, which the catch-all at line 148 turns into the generic error.
The same instant in timezone-naive form is accepted and written, showing
the rejection is not about the instant's value. -/
theorem update_shop_status_aware_future_reopen_fails :
    (parseIsoFixture "2030-01-01T00:00:00Z" = some (1893456000, true) ∧
      (1760000000 : Int) < 1893456000) ∧
    update_shop_status parseIsoFixture 1760000000 "admin@example.com" emptyDB
        (Val.bool true) (some "2030-01-01T00:00:00Z") Option.none =
      (Resp.error tzCompareError, emptyDB) ∧
    update_shop_status parseIsoFixture 1760000000 "admin@example.com" emptyDB
        (Val.bool true) (some "2030-01-01T00:00:00") Option.none =
      (Resp.shopStatusUpdated true (some "2030-01-01T00:00:00") Option.none,
        { emptyDB with shop_status :=
            [{ is_open := true, reopen_time := some "2030-01-01T00:00:00"
               reason := Option.none, updated_at := 1760000000
               updated_by := "admin@example.com" }] }) := by
  exact ⟨⟨by decide, by decide⟩, by decide, by decide⟩

/-- C2 behaviour the code does satisfy: with is_open present and a
timezone-naive parsed instant, a past (or present) instant is rejected
with the validation error and no write occurs, and a strictly future
instant is accepted and the singleton document is written. -/
theorem update_shop_status_naive_reopen (parse : IsoParse) (now t : Int)
    (email : String) (db : DB) (is_open : Val) (s : String)
    (reason : Option String) (hopen : is_open ≠ Val.none)
    (hne : ¬s.isEmpty) (hp : parse s = some (t, false)) :
    (t ≤ now →
      update_shop_status parse now email db is_open (some s) reason =
        (Resp.error "Reopen time must be in the future", db)) ∧
    (now < t →
      (update_shop_status parse now email db is_open (some s) reason).1 =
        Resp.shopStatusUpdated is_open.truthy (some s) reason ∧
      ((update_shop_status parse now email db is_open (some s) reason).2).shop_status.head? =
        some { is_open := is_open.truthy, reopen_time := some s
               reason := reason, updated_at := now, updated_by := email }) := by
  constructor
  · intro hle
    simp [update_shop_status, hopen, hne, hp, hle]
  · intro hlt
    have hnle : ¬t ≤ now := by omega
    cases hss : db.shop_status with
    | nil => simp [update_shop_status, hopen, hne, hp, hnle, hss]
    | cons a rest => simp [update_shop_status, hopen, hne, hp, hnle, hss]

/-- Witness for the naive-instant theorem at a concrete input. -/
theorem update_shop_status_naive_reopen_witness :
    (Val.bool false ≠ Val.none ∧
      ¬("2030-01-01T00:00:00").isEmpty ∧
      parseIsoFixture "2030-01-01T00:00:00" = some (1893456000, false)) ∧
    ((1893456000 : Int) ≤ 1760000000 →
      update_shop_status parseIsoFixture 1760000000 "admin@example.com" emptyDB
          (Val.bool false) (some "2030-01-01T00:00:00") Option.none =
        (Resp.error "Reopen time must be in the future", emptyDB)) ∧
    ((1760000000 : Int) < 1893456000 →
      (update_shop_status parseIsoFixture 1760000000 "admin@example.com" emptyDB
          (Val.bool false) (some "2030-01-01T00:00:00") Option.none).1 =
        Resp.shopStatusUpdated (Val.bool false).truthy
          (some "2030-01-01T00:00:00") Option.none ∧
      ((update_shop_status parseIsoFixture 1760000000 "admin@example.com" emptyDB
          (Val.bool false) (some "2030-01-01T00:00:00") Option.none).2).shop_status.head? =
        some { is_open := (Val.bool false).truthy
               reopen_time := some "2030-01-01T00:00:00"
               reason := Option.none, updated_at := 1760000000
               updated_by := "admin@example.com" }) :=
  ⟨⟨by decide, by decide, by decide⟩,
    update_shop_status_naive_reopen parseIsoFixture 1760000000 1893456000
      "admin@example.com" emptyDB (Val.bool false) "2030-01-01T00:00:00"
      Option.none (by decide) (by decide) (by decide)⟩

/-! ## C8: notification deletion requires existence and the admin flag -/

/-- C8: when no notification with the named internal id carries the
created_by_admin flag (covering both a missing notification and one not
created by an admin actor), the deletion answers with the single
collapsed error and removes nothing; and conversely any run that changed
the database found a notification with that id and the flag set. -/
theorem delete_notification_admin_only (db : DB) (nid? : Option String)
    (h : optTruthy nid? = true) :
    ((∀ n ∈ db.notifications, n._id = nid?.getD "" → n.created_by_admin = false) →
      delete_notification db nid? =
        (Resp.error "Notification not found or not authorized", db)) ∧
    ((delete_notification db nid?).2 ≠ db →
      ∃ n ∈ db.notifications,
        n._id = nid?.getD "" ∧ n.created_by_admin = true) := by
  constructor
  · intro hall
    have hfind : db.notifications.find?
        (fun n => n._id == nid?.getD "" && n.created_by_admin) = Option.none := by
      rw [List.find?_eq_none]
      intro n hn
      simp only [Bool.and_eq_true, beq_iff_eq, not_and]
      intro hid
      simp [hall n hn hid]
    simp [delete_notification, h, hfind]
  · intro hne
    cases hfind : db.notifications.find?
        (fun n => n._id == nid?.getD "" && n.created_by_admin) with
    | none =>
      exact absurd (by simp [delete_notification, h, hfind]) hne
    | some n =>
      have hmem := List.mem_of_find?_eq_some hfind
      have hp := List.find?_some hfind
      simp only [Bool.and_eq_true, beq_iff_eq] at hp
      exact ⟨n, hmem, hp.1, hp.2⟩

/-- A notification fixture that was not created by an admin actor. -/
def nonAdminNotif : NotificationDoc :=
  { _id := "n1", user_id := some "u1", title := "T", message := "M"
    type := "system", forKey := "specific_user", user_filter := Option.none
    target_user_count := Option.none, read := false, read_at := Option.none
    created_at := 0, created_at_ist := Option.none
    timezone := "Asia/Kolkata", created_by := "app"
    created_by_admin := false, order_id := Option.none }

/-- Witness for C8: deleting the non-admin notification n1 (and thereby
also any missing id) yields the collapsed error and leaves the
collection untouched. -/
theorem delete_notification_admin_only_witness :
    optTruthy (some "n1") = true ∧
    delete_notification { emptyDB with notifications := [nonAdminNotif] }
        (some "n1") =
      (Resp.error "Notification not found or not authorized",
        { emptyDB with notifications := [nonAdminNotif] }) :=
  ⟨by decide,
    (delete_notification_admin_only
        { emptyDB with notifications := [nonAdminNotif] } (some "n1")
        (by decide)).1 (by decide)⟩

/-! ## C7: broadcast notification creation -/

/-- C7: with title and message present, a zero snapshot audience makes
the broadcast fail with an error and write nothing, while a positive
snapshot audience inserts exactly one document, which stores that
snapshot count as target_user_count, and answers with success. -/
theorem send_notification_to_all_users_single_insert (nowUtc : Int)
    (istStr adminEmail newId : String) (db : DB) (d : BroadcastData)
    (ht : optTruthy d.title = true) (hm : optTruthy d.message = true) :
    (broadcastAudience db d.user_filter = 0 →
      send_notification_to_all_users nowUtc istStr adminEmail newId db d =
        (Resp.error "No users found matching the criteria", db)) ∧
    (0 < broadcastAudience db d.user_filter →
      ∃ n : NotificationDoc,
        (send_notification_to_all_users nowUtc istStr adminEmail newId db d).2.notifications =
          db.notifications ++ [n] ∧
        n.target_user_count = some (broadcastAudience db d.user_filter) ∧
        ((send_notification_to_all_users nowUtc istStr adminEmail newId db d).1).isError =
          false) := by
  constructor
  · intro h0
    simp [send_notification_to_all_users, ht, hm, h0]
  · intro hpos
    have h0 : ¬broadcastAudience db d.user_filter = 0 := by omega
    refine ⟨{ _id := newId, user_id := Option.none, title := (d.title).getD ""
              message := (d.message).getD "", type := (d.type).getD "system"
              forKey := "all_users", user_filter := some d.user_filter
              target_user_count := some (broadcastAudience db d.user_filter)
              read := false, read_at := Option.none, created_at := nowUtc
              created_at_ist := some istStr, timezone := "Asia/Kolkata"
              created_by := adminEmail, created_by_admin := true
              order_id := Option.none }, ?_, rfl, ?_⟩
    · simp [send_notification_to_all_users, ht, hm, h0]
    · simp [send_notification_to_all_users, ht, hm, h0, Resp.isError]

/-- An active verified customer fixture for the broadcast audience. -/
def customerFixture : UserDoc :=
  { _id := "obj1", id := "u1", name := "Asha", email := "asha@example.com"
    phone := "1", role := "customer", is_active := true, is_verified := true }

/-- A broadcast payload fixture with title and message present. -/
def broadcastFixture : BroadcastData :=
  { title := some "T", message := some "M", type := Option.none
    user_filter := { active_only := Val.none, verified_only := Val.none } }

/-- Witness for C7 on a database with exactly one matching customer:
exactly one document is inserted and it stores the snapshot count 1. -/
theorem send_notification_to_all_users_single_insert_witness :
    optTruthy broadcastFixture.title = true ∧
    0 < broadcastAudience { emptyDB with users := [customerFixture] }
        broadcastFixture.user_filter ∧
    ∃ n : NotificationDoc,
      (send_notification_to_all_users 0 "2030-01-01 05:30:00" "admin@example.com"
          "n9" { emptyDB with users := [customerFixture] } broadcastFixture).2.notifications =
        ({ emptyDB with users := [customerFixture] } : DB).notifications ++ [n] ∧
      n.target_user_count =
        some (broadcastAudience { emptyDB with users := [customerFixture] }
          broadcastFixture.user_filter) ∧
      ((send_notification_to_all_users 0 "2030-01-01 05:30:00" "admin@example.com"
          "n9" { emptyDB with users := [customerFixture] } broadcastFixture).1).isError =
        false :=
  ⟨by decide, by decide,
    (send_notification_to_all_users_single_insert 0 "2030-01-01 05:30:00"
        "admin@example.com" "n9" { emptyDB with users := [customerFixture] }
        broadcastFixture (by decide) (by decide)).2 (by decide)⟩

/-! ## C3: delivery-partner assignment has no partial writes -/

/-- C3: whenever the order cannot be found by its external id, or no
user exists with the partner's external id, role delivery_partner and
active flag true, the assignment answers with a discrete error and the
database is untouched: no order field changes and no history entry is
appended. -/
theorem assign_delivery_partner_no_partial_write (now : Int) (db : DB)
    (d : AssignData)
    (h : findOrderById db ((d.order_id).getD "") = Option.none ∨
      findActivePartner db ((d.delivery_partner_id).getD "") = Option.none) :
    ((assign_delivery_partner now db d).1).isError = true ∧
    (assign_delivery_partner now db d).2 = db := by
  by_cases hids : optTruthy d.order_id && optTruthy d.delivery_partner_id
  · cases hord : findOrderById db ((d.order_id).getD "") with
    | none => simp [assign_delivery_partner, hids, hord, Resp.isError]
    | some o =>
      cases hpart : findActivePartner db ((d.delivery_partner_id).getD "") with
      | none => simp [assign_delivery_partner, hids, hord, hpart, Resp.isError]
      | some p =>
        rcases h with h | h
        · exact absurd hord (by simp [h])
        · exact absurd hpart (by simp [h])
  · simp [assign_delivery_partner, hids, Resp.isError]

/-- An order fixture whose id is o1, with no partner assigned. -/
def orderO1 : OrderDoc := mkOrderFixture 1

/-- A user fixture whose role is customer, not delivery_partner. -/
def nonPartnerUser : UserDoc :=
  { _id := "obj2", id := "p1", name := "Ravi", email := "ravi@example.com"
    phone := "2", role := "customer", is_active := true, is_verified := true }

/-- Witness for C3: assigning the existing order o1 to the existing but
wrongly-roled user p1 errors and leaves the database unchanged. -/
theorem assign_delivery_partner_no_partial_write_witness :
    (findOrderById
        { emptyDB with orders := [orderO1], users := [nonPartnerUser] } "o1" =
          Option.none ∨
      findActivePartner
        { emptyDB with orders := [orderO1], users := [nonPartnerUser] } "p1" =
          Option.none) ∧
    ((assign_delivery_partner 0
        { emptyDB with orders := [orderO1], users := [nonPartnerUser] }
        { order_id := some "o1", delivery_partner_id := some "p1"
          admin_name := Option.none }).1).isError = true ∧
    (assign_delivery_partner 0
        { emptyDB with orders := [orderO1], users := [nonPartnerUser] }
        { order_id := some "o1", delivery_partner_id := some "p1"
          admin_name := Option.none }).2 =
      { emptyDB with orders := [orderO1], users := [nonPartnerUser] } :=
  ⟨Or.inr (by decide),
    assign_delivery_partner_no_partial_write 0
      { emptyDB with orders := [orderO1], users := [nonPartnerUser] }
      { order_id := some "o1", delivery_partner_id := some "p1"
        admin_name := Option.none }
      (Or.inr (by decide))⟩

/-! ## C10: the status-update message is a fixed string -/

/-- C10: for any order-status update with both id and status present and
an order matching the id, the written order carries status_message
"Order is out for delivery" and the appended history entry carries the
same message, whatever status value was supplied. -/
theorem update_order_status_fixed_message (now : Int) (db : DB)
    (d : UpdateStatusData) (h1 : optTruthy d.oid = true)
    (h2 : optTruthy d.status = true) (o : OrderDoc) (ho : o ∈ db.orders)
    (hid : o.id = (d.oid).getD "") :
    ∃ o' ∈ ((update_order_status now db d).2).orders,
      o'.id = o.id ∧
      o'.order_status = (d.status).getD "" ∧
      o'.status_message = some "Order is out for delivery" ∧
      (o'.status_change_history.getLast?).map HistoryEntry.message =
        some "Order is out for delivery" := by
  have hids : optTruthy d.oid && optTruthy d.status := by simp [h1, h2]
  refine ⟨applyStatusUpdate now ((d.oid).getD "") ((d.status).getD "") o, ?_, ?_⟩
  · have hmem : applyStatusUpdate now ((d.oid).getD "") ((d.status).getD "") o ∈
        db.orders.map (applyStatusUpdate now ((d.oid).getD "") ((d.status).getD "")) :=
      List.mem_map_of_mem _ ho
    have hsnd : ((update_order_status now db d).2).orders =
        db.orders.map (applyStatusUpdate now ((d.oid).getD "") ((d.status).getD "")) := by
      by_cases hany : db.orders.any (fun o => o.id == (d.oid).getD "")
      · simp [update_order_status, hids, hany]
      · simp [update_order_status, hids, hany]
    rw [hsnd]
    exact hmem
  · simp [applyStatusUpdate, hid, List.getLast?_concat]

/-- Witness for C10: updating order o1 to the status value
cancelled still stamps the out-for-delivery message on the order and on
the appended history entry. -/
theorem update_order_status_fixed_message_witness :
    optTruthy (UpdateStatusData.oid
      { order_id := some "o1", orderId := Option.none
        status := some "cancelled" }) = true ∧
    orderO1 ∈ ({ emptyDB with orders := [orderO1] } : DB).orders ∧
    ∃ o' ∈ ((update_order_status 7 { emptyDB with orders := [orderO1] }
        { order_id := some "o1", orderId := Option.none
          status := some "cancelled" }).2).orders,
      o'.id = orderO1.id ∧
      o'.order_status = (some "cancelled").getD "" ∧
      o'.status_message = some "Order is out for delivery" ∧
      (o'.status_change_history.getLast?).map HistoryEntry.message =
        some "Order is out for delivery" :=
  ⟨by decide, by simp,
    update_order_status_fixed_message 7 { emptyDB with orders := [orderO1] }
      { order_id := some "o1", orderId := Option.none
        status := some "cancelled" }
      (by decide) (by decide) orderO1 (by simp) (by decide)⟩

/-! ## C1: cross-collection lookups and the internal _id field -/

/-- A user fixture whose internal _id and external id differ, as they do
for every real document. -/
def userU1 : UserDoc :=
  { _id := "64ab0012fe3c", id := "u1", name := "Asha"
    email := "asha@example.com", phone := "1", role := "customer"
    is_active := true, is_verified := true }

/-- C1 evaluation at the failing input: the users collection holds a
user whose application-level external id is u1 (so the notification
listing's recipient resolution, which filters on the id field, finds
them), yet send_notification_to_user with user_id u1 reports that the
user does not exist and inserts nothing, because its verification query
(notifications.py line 165) filters on the storage-internal _id field
instead of the external id field used everywhere else. -/
theorem send_notification_to_user_filters_on_internal_id :
    resolveNotificationRecipient { emptyDB with users := [userU1] } "u1" =
      some userU1 ∧
    userByInternalId { emptyDB with users := [userU1] } "u1" = Option.none ∧
    send_notification_to_user 0 "2030-01-01 05:30:00" "admin@example.com" "n5"
        { emptyDB with users := [userU1] }
        { user_id := some "u1", title := some "T", message := some "M"
          type := Option.none, order_id := Option.none } =
      (Resp.error "User not found", { emptyDB with users := [userU1] }) := by
  exact ⟨by decide, by decide, by decide⟩

/-! ## C4: zero matching orders -/

/-- C4: for every filter set whose matching order count is zero, the
listing responds with total_pages 1 and an empty order list. -/
theorem send_orders_zero_matches (parseDate parseAmount : String → Option Int)
    (db : DB) (f : Filters) (_hp : 1 ≤ f.page)
    (h0 : countOrders db (build_orders_query parseDate parseAmount f) = 0) :
    ∃ pag : Pagination,
      send_orders parseDate parseAmount db f = Resp.ordersData [] pag ∧
      pag.total_pages = 1 := by
  have hguard : ¬(0 < countOrders db (build_orders_query parseDate parseAmount f) ∧
      f.limit = 0) := by
    rintro ⟨hpos, -⟩
    omega
  have hfil : db.orders.filter
      (ordMatches (build_orders_query parseDate parseAmount f)) = [] :=
    List.length_eq_zero.mp h0
  refine ⟨mkPagination f.page f.limit
    (countOrders db (build_orders_query parseDate parseAmount f)), ?_, ?_⟩
  · rw [send_orders_shape parseDate parseAmount db f hguard,
      findOrders_of_no_match db _ _ _ hfil]
    rfl
  · simp [mkPagination, h0]

/-- Witness for C4: the empty database with the plain filter set. -/
theorem send_orders_zero_matches_witness :
    1 ≤ plainFilters.page ∧
    countOrders emptyDB
      (build_orders_query parseDigits parseDigits plainFilters) = 0 ∧
    ∃ pag : Pagination,
      send_orders parseDigits parseDigits emptyDB plainFilters =
        Resp.ordersData [] pag ∧
      pag.total_pages = 1 :=
  ⟨by decide, by decide,
    send_orders_zero_matches parseDigits parseDigits emptyDB plainFilters
      (by decide) (by decide)⟩

/-! ## C5: pagination metadata -/

/-- C5 counterexample: with zero matching orders the response reports
total_pages 1, not ceil(total matching / page size) = ceil(0 / 10) = 0,
so the unconditional ceiling formula of the claim fails. -/
theorem send_orders_ceil_formula_counterexample :
    ∃ pag : Pagination,
      send_orders parseDigits parseDigits emptyDB plainFilters =
        Resp.ordersData [] pag ∧
      pag.total_orders = 0 ∧ pag.page_size = 10 ∧ pag.total_pages = 1 ∧
      pag.total_pages ≠ ceilDiv pag.total_orders pag.page_size :=
  ⟨mkPagination 1 10 0, by decide, by decide, by decide, by decide, by decide⟩

/-- C5 (amended): for page at least 1 and a positive page size, the
listing responds with the page of orders and metadata in which
current_page and page_size echo the request, total_orders is the
matching count, total_pages is ceil(total / size) when at least one
order matches and 1 when none does, has_prev holds iff page exceeds 1,
has_next holds iff page is below the reported total_pages, and the page
carries min(size, total - (page-1)*size) orders. -/
theorem send_orders_pagination_metadata (parseDate parseAmount : String → Option Int)
    (db : DB) (f : Filters) (_hp : 1 ≤ f.page) (hl : 1 ≤ f.limit) :
    ∃ (os : List SerializedOrder) (pag : Pagination),
      send_orders parseDate parseAmount db f = Resp.ordersData os pag ∧
      pag.current_page = f.page ∧
      pag.page_size = f.limit ∧
      pag.total_orders = countOrders db (build_orders_query parseDate parseAmount f) ∧
      (0 < pag.total_orders →
        pag.total_pages = ceilDiv pag.total_orders f.limit) ∧
      (pag.total_orders = 0 → pag.total_pages = 1) ∧
      pag.has_prev = decide (1 < f.page) ∧
      pag.has_next = decide (f.page < pag.total_pages) ∧
      os.length = min f.limit (pag.total_orders - (f.page - 1) * f.limit) := by
  have hguard : ¬(0 < countOrders db (build_orders_query parseDate parseAmount f) ∧
      f.limit = 0) := by
    rintro ⟨-, h0⟩
    omega
  refine ⟨(findOrders db (build_orders_query parseDate parseAmount f)
      ((f.page - 1) * f.limit) f.limit).map (serializeOrder db),
    mkPagination f.page f.limit
      (countOrders db (build_orders_query parseDate parseAmount f)),
    send_orders_shape parseDate parseAmount db f hguard,
    rfl, rfl, rfl, ?_, ?_, rfl, rfl, ?_⟩
  · intro hpos
    simp only [mkPagination] at hpos ⊢
    rw [if_pos hpos]
  · intro h0
    simp only [mkPagination] at h0 ⊢
    rw [if_neg (by omega)]
  · rw [List.length_map, length_findOrders db _ _ _ (by omega)]
    rfl

/-- Witness for the amended C5 theorem, realising the worked example of
the claim: 25 matching orders with page 1 and limit 10 yield total_pages
3, has_next true, has_prev false and exactly 10 orders on the page. -/
theorem send_orders_pagination_metadata_witness :
    1 ≤ plainFilters.page ∧ 1 ≤ plainFilters.limit ∧
    ∃ (os : List SerializedOrder) (pag : Pagination),
      send_orders parseDigits parseDigits db25 plainFilters =
        Resp.ordersData os pag ∧
      pag.total_pages = 3 ∧ pag.has_next = true ∧ pag.has_prev = false ∧
      os.length = 10 := by
  refine ⟨by decide, by decide, ?_⟩
  obtain ⟨os, pag, hsend, hcur, hsize, htot, hpos, hzero, hprev, hnext, hlen⟩ :=
    send_orders_pagination_metadata parseDigits parseDigits db25 plainFilters
      (by decide) (by decide)
  have hcount : countOrders db25
      (build_orders_query parseDigits parseDigits plainFilters) = 25 := by decide
  rw [hcount] at htot
  have h3 : pag.total_pages = 3 := by
    have := hpos (by omega)
    rw [htot] at this
    simpa [ceilDiv] using this
  refine ⟨os, pag, hsend, h3, ?_, ?_, ?_⟩
  · rw [hnext, h3]
    decide
  · rw [hprev]
    decide
  · rw [hlen, htot]
    decide

/-! ## C6: malformed filter values are dropped individually -/

/-- C6: a malformed value in any of the parsed filter dimensions (a
from_date or to_date that fails to parse, or a min_amount or max_amount
that float() rejects) drops only that dimension: the built query equals
the query with that one field absent, so every other well-formed filter
still contributes its conjunct; and the listing still executes, sending
an orders response rather than aborting. -/
theorem build_orders_query_drops_malformed (parseDate parseAmount : String → Option Int)
    (f : Filters) :
    (∀ s, f.from_date = some s → ¬s.isEmpty → parseDate s = Option.none →
      build_orders_query parseDate parseAmount f =
        build_orders_query parseDate parseAmount { f with from_date := Option.none }) ∧
    (∀ s, f.to_date = some s → ¬s.isEmpty → parseDate s = Option.none →
      build_orders_query parseDate parseAmount f =
        build_orders_query parseDate parseAmount { f with to_date := Option.none }) ∧
    (∀ s, f.min_amount = some s → ¬s.isEmpty → parseAmount s = Option.none →
      build_orders_query parseDate parseAmount f =
        build_orders_query parseDate parseAmount { f with min_amount := Option.none }) ∧
    (∀ s, f.max_amount = some s → ¬s.isEmpty → parseAmount s = Option.none →
      build_orders_query parseDate parseAmount f =
        build_orders_query parseDate parseAmount { f with max_amount := Option.none }) ∧
    (∀ db : DB, 1 ≤ f.limit →
      ∃ os pag, send_orders parseDate parseAmount db f = Resp.ordersData os pag) := by
  refine ⟨?_, ?_, ?_, ?_, ?_⟩
  · intro s hs hne hparse
    simp [build_orders_query, fromDateConds, statusConds, toDateConds,
      minAmountConds, maxAmountConds, searchConds, hs, hne, hparse]
  · intro s hs hne hparse
    simp [build_orders_query, fromDateConds, statusConds, toDateConds,
      minAmountConds, maxAmountConds, searchConds, hs, hne, hparse]
  · intro s hs hne hparse
    simp [build_orders_query, fromDateConds, statusConds, toDateConds,
      minAmountConds, maxAmountConds, searchConds, hs, hne, hparse]
  · intro s hs hne hparse
    simp [build_orders_query, fromDateConds, statusConds, toDateConds,
      minAmountConds, maxAmountConds, searchConds, hs, hne, hparse]
  · intro db hl
    exact ⟨_, _, send_orders_shape parseDate parseAmount db f
      (by rintro ⟨-, h0⟩; omega)⟩

/-- A filter set mixing a malformed from_date with a well-formed
min_amount. -/
def mixedFilters : Filters :=
  { status := some "pending", from_date := some "garbage"
    to_date := Option.none, min_amount := some "50"
    max_amount := Option.none, search := Option.none, page := 1, limit := 10 }

/-- Witness for C6: on mixedFilters the malformed from_date is dropped
while the status and min_amount conjuncts survive, and the listing still
answers with an orders response. -/
theorem build_orders_query_drops_malformed_witness :
    (mixedFilters.from_date = some "garbage" ∧
      parseDigits "garbage" = Option.none) ∧
    build_orders_query parseDigits parseDigits mixedFilters =
      build_orders_query parseDigits parseDigits
        { mixedFilters with from_date := Option.none } ∧
    build_orders_query parseDigits parseDigits mixedFilters =
      [Cond.statusEq "pending", Cond.amountGe 50] ∧
    ∃ os pag, send_orders parseDigits parseDigits emptyDB mixedFilters =
      Resp.ordersData os pag :=
  ⟨⟨by decide, by decide⟩,
    (build_orders_query_drops_malformed parseDigits parseDigits mixedFilters).1
      "garbage" (by decide) (by decide) (by decide),
    by decide,
    (build_orders_query_drops_malformed parseDigits parseDigits
        mixedFilters).2.2.2.2 emptyDB (by decide)⟩

end AdminBackend
